import Mathlib

/-!
# Verification of the `make_lint.py` check runner

Shallow embedding of `src/make_lint.py`, the lint/test orchestrator of the
DataQuilt repository, together with proofs about its result-aggregation and
reporting behaviour.

The script shells out to external commands.  We model the environment as a
`World`: a function from an argument vector to the outcome the spawned
process would have (`completed`/`timedOut`/`launchError`, mirroring the
`try`/`except` arms of `LintChecker.run_command`), plus a predicate saying
which paths exist under the root directory.  Everything else is a direct
translation of the Python source: machine integers are `Int` (Python ints
are unbounded), the float `success_rate` is modelled over `ℚ`, and the
`results["checks"]` dictionary is an insertion-ordered association list.
-/

/-- Outcome of `subprocess.run` inside `LintChecker.run_command`
(`src/make_lint.py` lines 58-89): normal completion with a return code and
captured streams, `subprocess.TimeoutExpired`, or any other exception raised
while launching the process (carrying `str(e)`). -/
inductive CmdOutcome where
  | completed (returncode : Int) (stdout stderr : String)
  | timedOut
  | launchError (msg : String)
deriving DecidableEq

/-- The environment a run executes in: which paths exist relative to the
script's root directory, and what happens when a given argument vector is
spawned.  A run of the script is deterministic given a `World`. -/
structure World where
  pathExists : String → Bool
  run : List String → CmdOutcome

/-- The dictionary returned by `LintChecker.run_command`
(`src/make_lint.py` lines 67-89): keys `success`, `returncode`, `stdout`,
`stderr`, `description`. -/
structure CheckResult where
  success : Bool
  returncode : Int
  stdout : String
  stderr : String
  description : String
deriving DecidableEq

/-- `LintChecker.run_command` (lines 50-89), with the subprocess call
abstracted into a `CmdOutcome`.  Normal exit: success iff the return code is
`0`.  Timeout: success `false`, sentinel return code `-1`, a message naming
the description.  Launch failure: success `false`, `-1`, `str(e)` in
`stderr`.  (The `cwd` parameter always defaults to the root directory and is
irrelevant to the recorded result, so it is not modelled.) -/
def run_command (outcome : CmdOutcome) (description : String) : CheckResult :=
  match outcome with
  | CmdOutcome.completed rc out err =>
      { success := rc == 0, returncode := rc, stdout := out, stderr := err,
        description := description }
  | CmdOutcome.timedOut =>
      { success := false, returncode := -1, stdout := "",
        stderr := "Command timed out after 5 minutes: " ++ description,
        description := description }
  | CmdOutcome.launchError msg =>
      { success := false, returncode := -1, stdout := "", stderr := msg,
        description := description }

/-- Argument vector built by `LintChecker.run_eslint` (lines 106-115). -/
def eslint_command (fix : Bool) : List String :=
  if fix then ["npx", "eslint", ".", "--ext", ".ts,.tsx,.js,.jsx", "--fix"]
  else ["npx", "eslint", ".", "--ext", ".ts,.tsx,.js,.jsx"]

/-- Description string of the ESLint check (lines 108-113). -/
def eslint_description (fix : Bool) : String :=
  if fix then "ESLint with auto-fix" else "ESLint check"

/-- Argument vector built by `LintChecker.run_prettier` (lines 117-126). -/
def prettier_command (fix : Bool) : List String :=
  if fix then ["npx", "prettier", "--write", "."]
  else ["npx", "prettier", "--check", "."]

/-- Description string of the Prettier check (lines 119-124). -/
def prettier_description (fix : Bool) : String :=
  if fix then "Prettier format" else "Prettier check"

/-- Argument vector of `LintChecker.run_typescript_check` (line 130). -/
def typescript_command : List String := ["npx", "tsc", "--noEmit"]

/-- Argument vector of `LintChecker.run_drizzle_check` (line 135). -/
def drizzle_command : List String := ["npx", "drizzle-kit", "check"]

/-- The `test_commands` list of `LintChecker.run_test_scripts`
(lines 143-148): argument vector paired with its description. -/
def test_commands : List (List String × String) :=
  [ (["npm", "run", "test:auth"], "Authentication tests"),
    (["npm", "run", "test:crypto"], "Crypto utility tests"),
    (["npm", "run", "test:csv"], "CSV processing tests"),
    (["npm", "run", "test:substitution"], "Variable substitution tests") ]

/-- `LintChecker.run_eslint` (lines 106-115). -/
def run_eslint (fix : Bool) (w : World) : CheckResult :=
  run_command (w.run (eslint_command fix)) (eslint_description fix)

/-- `LintChecker.run_prettier` (lines 117-126). -/
def run_prettier (fix : Bool) (w : World) : CheckResult :=
  run_command (w.run (prettier_command fix)) (prettier_description fix)

/-- `LintChecker.run_typescript_check` (lines 128-131). -/
def run_typescript_check (w : World) : CheckResult :=
  run_command (w.run typescript_command) "TypeScript type check"

/-- `LintChecker.run_drizzle_check` (lines 133-136). -/
def run_drizzle_check (w : World) : CheckResult :=
  run_command (w.run drizzle_command) "Drizzle schema check"

/-- `LintChecker.run_test_scripts` (lines 138-154): runs each test command
and stores its result in `test_results` under its description.  Python
dicts preserve insertion order, so an association list in command order is
a faithful model. -/
def run_test_scripts (w : World) : List (String × CheckResult) :=
  test_commands.map (fun p => (p.2, run_command (w.run p.1) p.2))

/-- The `required_paths` list of `LintChecker.check_file_structure`
(lines 158-168). -/
def required_paths : List String :=
  [ "client/src", "server", "worker", "shared", "package.json",
    "tsconfig.json", "drizzle.config.ts", "vite.config.ts",
    "tailwind.config.ts" ]

/-- A value of the `results["checks"]` dictionary.  Every value the script
ever stores there is itself a Python dict: a `run_command` result dict
(`cmd`), the dict built by `check_file_structure` (lines 175-179, carrying
`missing_paths`), the dict built by `check_environment_variables`
(lines 186-195, carrying the two existence booleans), or the nested
`test_results` mapping from `run_test_scripts` (`group`). -/
inductive CheckValue where
  | cmd (r : CheckResult)
  | fileStructure (missing_paths : List String)
  | environment (env_example_exists env_validation_exists : Bool)
  | group (rs : List (String × CheckResult))
deriving DecidableEq

/-- `isinstance(result, dict)` for a stored check value.  Every constructor
of `CheckValue` represents a Python dict (see the docstring of
`CheckValue`), so this is constantly `true`; it is kept as a named function
because `analyze_results` branches on it. -/
def isinstance_dict : CheckValue → Bool := fun _ => true

/-- Python truthiness of `result.get("success", False)` (line 236).
For a `run_command` dict and for the structural check dicts the key holds
the stored boolean.  The nested test mapping has no `"success"` key (its
keys are the four test descriptions), so `get` returns the default `False`;
were such a key ever present its value would be a non-empty result dict,
which is truthy. -/
def CheckValue.getSuccess : CheckValue → Bool
  | CheckValue.cmd r => r.success
  | CheckValue.fileStructure missing => missing.isEmpty
  | CheckValue.environment a b => a && b
  | CheckValue.group rs => (rs.map Prod.fst).contains "success"

/-- `result.get('description', 'Check failed')` (line 239).  The
`run_command` and structural dicts always carry a `description` key; the
nested test mapping has none (its keys are the four test descriptions), so
the default fires. -/
def CheckValue.getDescription : CheckValue → String
  | CheckValue.cmd r => r.description
  | CheckValue.fileStructure _ => "File structure check"
  | CheckValue.environment _ _ => "Environment configuration check"
  | CheckValue.group _ => "Check failed"

/-- Python truthiness of `result.get("stderr")` together with the sliced
text `result['stderr']` (lines 242-243): the captured stream for a
`run_command` dict; the structural dicts and the nested test mapping carry
no `"stderr"` key (the test mapping's keys are the four test descriptions),
so `get` returns the falsy `None`, modelled as the empty string. -/
def CheckValue.stderrStr : CheckValue → String
  | CheckValue.cmd r => r.stderr
  | _ => ""

/-- `LintChecker.check_file_structure` (lines 156-179): collect the
required paths that do not exist; success iff none are missing. -/
def check_file_structure (w : World) : CheckValue :=
  CheckValue.fileStructure (required_paths.filter (fun p => !(w.pathExists p)))

/-- `LintChecker.check_environment_variables` (lines 181-195): success iff
both `.env.example` and `shared/env-validation.ts` exist. -/
def check_environment_variables (w : World) : CheckValue :=
  CheckValue.environment (w.pathExists ".env.example")
    (w.pathExists "shared/env-validation.ts")

/-- `LintChecker.check_node_modules` (lines 91-104), returning both the
boolean and the ERROR-level log lines it emits: `package.json` is checked
first, then `node_modules`. -/
def check_node_modules_result (w : World) : Bool × List String :=
  if w.pathExists "package.json" then
    if w.pathExists "node_modules" then (true, [])
    else (false, ["node_modules not found. Run \x27npm install\x27 first."])
  else (false, ["package.json not found"])

/-- The boolean returned by `LintChecker.check_node_modules`. -/
def check_node_modules (w : World) : Bool := (check_node_modules_result w).1

/-- The `results["checks"]` dictionary as populated by
`LintChecker.run_all_checks` (lines 206-218), in insertion order:
`eslint`, `prettier`, `typescript`, `drizzle`, `file_structure`,
`environment`, and then the nested `tests` mapping (split off as the last
singleton so the final entry is syntactically visible). -/
def runChecksPlain (fix : Bool) (w : World) : List (String × CheckValue) :=
  [ ("eslint", CheckValue.cmd (run_eslint fix w)),
    ("prettier", CheckValue.cmd (run_prettier fix w)),
    ("typescript", CheckValue.cmd (run_typescript_check w)),
    ("drizzle", CheckValue.cmd (run_drizzle_check w)),
    ("file_structure", check_file_structure w),
    ("environment", check_environment_variables w) ]

/-- All seven entries of `results["checks"]` (lines 206-218). -/
def runChecks (fix : Bool) (w : World) : List (String × CheckValue) :=
  runChecksPlain fix w ++ [("tests", CheckValue.group (run_test_scripts w))]

/-- Python's substring operator `pat in s`, decided over the character
lists: the pattern occurs iff it is a prefix of some tail of the string. -/
def substrOccurs (pat s : String) : Bool :=
  s.data.tails.any (fun t => pat.data.isPrefixOf t)

/-- `"tests" in check_name` (line 244). -/
def containsTests (s : String) : Bool := substrOccurs "tests" s

/-- The three ways an iteration of the `analyze_results` loop
(lines 232-251) can branch: the `if isinstance(result, dict)` arm, the
`elif isinstance(result, dict) and "tests" in check_name` arm, or neither. -/
inductive AnalyzeBranch where
  | ifBranch
  | elifBranch
  | skipBranch
deriving DecidableEq

/-- Branch selection of the `analyze_results` loop body, with the
`isinstance(result, dict)` test abstracted as a parameter `d` so that the
guard structure itself (the `elif` guard conjoins the very test the `if`
already made) is explicit. -/
def selectBranch (d : CheckValue → Bool) (check_name : String)
    (result : CheckValue) : AnalyzeBranch :=
  if d result then AnalyzeBranch.ifBranch
  else if d result && containsTests check_name then AnalyzeBranch.elifBranch
  else AnalyzeBranch.skipBranch

/-- Loop state of `analyze_results` (lines 227-230): the `total_checks`
and `successful_checks` counters (Python ints) and the `errors` list. -/
structure AnalyzeAcc where
  total_checks : Int
  successful_checks : Int
  errors : List String
deriving DecidableEq

/-- One iteration of the `for check_name, result in ...` loop of
`LintChecker.analyze_results` (lines 232-251): bump `total_checks`, then
branch.  The `if` arm counts a success or records the error line (plus the
`Details:` line truncated to 200 characters when a captured stream is
present); the `elif` arm is the nested per-test flattening, embedded
verbatim even though `selectBranch` never selects it. -/
def analyzeStep (acc : AnalyzeAcc) (entry : String × CheckValue) : AnalyzeAcc :=
  let check_name := entry.1
  let result := entry.2
  let acc1 : AnalyzeAcc := { acc with total_checks := acc.total_checks + 1 }
  match selectBranch isinstance_dict check_name result with
  | AnalyzeBranch.ifBranch =>
      if result.getSuccess then
        { acc1 with successful_checks := acc1.successful_checks + 1 }
      else
        let errs := acc1.errors ++ [check_name ++ ": " ++ result.getDescription]
        let errs := if result.stderrStr ≠ "" then
            errs ++ ["  Details: " ++ result.stderrStr.take 200 ++ "..."]
          else errs
        { acc1 with errors := errs }
  | AnalyzeBranch.elifBranch =>
      match result with
      | CheckValue.group rs =>
          rs.foldl (fun a p =>
            let a1 : AnalyzeAcc := { a with total_checks := a.total_checks + 1 }
            if p.2.success then
              { a1 with successful_checks := a1.successful_checks + 1 }
            else
              { a1 with errors := a1.errors ++ [p.1 ++ ": " ++ p.2.description] })
            acc1
      | _ => acc1
  | AnalyzeBranch.skipBranch => acc1

/-- The `results["summary"]` dictionary built at lines 253-259.
`success_rate` (a Python float computed by true division) is modelled
exactly over `ℚ`. -/
structure Summary where
  total_checks : Int
  successful_checks : Int
  failed_checks : Int
  overall_success : Bool
  success_rate : ℚ
deriving DecidableEq

/-- Lines 253-259: derive the summary from the two counters. -/
def mkSummary (total successful : Int) : Summary :=
  { total_checks := total
    successful_checks := successful
    failed_checks := total - successful
    overall_success := successful == total
    success_rate := if total > 0 then (successful : ℚ) / (total : ℚ) * 100 else 0 }

/-- `LintChecker.analyze_results` (lines 225-262): fold the loop body over
the checks dictionary, then build the summary; returns the summary and the
collected `errors` list. -/
def analyze_results (checks : List (String × CheckValue)) : Summary × List String :=
  let acc := checks.foldl analyzeStep ⟨0, 0, []⟩
  (mkSummary acc.total_checks acc.successful_checks, acc.errors)

/-- The `results` report relevant to the claims: the checks mapping, the
`errors` list, and the summary (`none` models the initial empty
`results["summary"]` dict of line 40, before `analyze_results` fills it). -/
structure RunReport where
  checks : List (String × CheckValue)
  errors : List String
  summary : Option Summary

/-- `LintChecker.run_all_checks` (lines 197-223): abort (returning `False`
with the report untouched) when `check_node_modules` fails; otherwise
populate the checks dictionary, run `analyze_results`, and return
`results["summary"]["overall_success"]`. -/
def run_all_checks (fix : Bool) (w : World) : RunReport × Bool :=
  if check_node_modules w then
    let checks := runChecks fix w
    let a := analyze_results checks
    ({ checks := checks, errors := a.2, summary := some a.1 },
      a.1.overall_success)
  else
    ({ checks := [], errors := [], summary := none }, false)

/-- Line 346: `fix_mode = args.fix and not args.check_only`. -/
def fix_mode (fix check_only : Bool) : Bool := fix && !check_only

/-- The argument vectors of every external command a run spawns, in catalog
order (lines 206-218; the two structural checks spawn nothing). -/
def allCommands (fix : Bool) : List (List String) :=
  [eslint_command fix, prettier_command fix, typescript_command,
    drizzle_command] ++ test_commands.map Prod.fst

/-- Process exit code of `main` (lines 305-369).  When `run_all_checks`
aborted early, `results["summary"]` is still the empty dict, so
`print_summary` (line 272) raises `KeyError`; the `except Exception`
handler at line 364 then exits with code 1.  Otherwise the run reaches
`sys.exit(0 if success else 1)` (line 359). -/
def mainExit (fix check_only : Bool) (w : World) : Nat :=
  let out := run_all_checks (fix_mode fix check_only) w
  match out.1.summary with
  | none => 1
  | some _ => if out.2 then 0 else 1

/-- A world in which every required path exists and every spawned command
completes with exit code 0 and empty output. -/
def allOkWorld : World :=
  { pathExists := fun _ => true,
    run := fun _ => CmdOutcome.completed 0 "" "" }

/-- A world in which every path exists and every command succeeds except
`npm run test:auth`, which exits with code 1 and error output. -/
def authFailWorld : World :=
  { pathExists := fun _ => true,
    run := fun cmd =>
      if cmd = ["npm", "run", "test:auth"] then
        CmdOutcome.completed 1 "" "auth test failure"
      else CmdOutcome.completed 0 "" "" }

/-- A world in which every path exists and every spawned command times out. -/
def timeoutWorld : World :=
  { pathExists := fun _ => true, run := fun _ => CmdOutcome.timedOut }

/-- A world in which no path exists (in particular neither `package.json`
nor `node_modules`). -/
def noDepsWorld : World :=
  { pathExists := fun _ => false,
    run := fun _ => CmdOutcome.completed 0 "" "" }

/-- With the real `isinstance` test (constantly `true` on stored check
values), the loop body always takes the `if` arm. -/
lemma selectBranch_isinstance (check_name : String) (result : CheckValue) :
    selectBranch isinstance_dict check_name result = AnalyzeBranch.ifBranch := rfl

/-- Closed form of one loop iteration: since the `elif` arm is never
selected, the step bumps `total_checks` and either counts a success or
appends the error line(s). -/
lemma analyzeStep_def (acc : AnalyzeAcc) (e : String × CheckValue) :
    analyzeStep acc e =
      if e.2.getSuccess then
        { acc with total_checks := acc.total_checks + 1,
                   successful_checks := acc.successful_checks + 1 }
      else
        { acc with total_checks := acc.total_checks + 1,
                   errors :=
                     if e.2.stderrStr ≠ "" then
                       (acc.errors ++ [e.1 ++ ": " ++ e.2.getDescription]) ++
                         ["  Details: " ++ e.2.stderrStr.take 200 ++ "..."]
                     else acc.errors ++ [e.1 ++ ": " ++ e.2.getDescription] } := by
  by_cases h : e.2.getSuccess = true <;>
    simp [analyzeStep, selectBranch_isinstance, h]

/-- Every iteration increments `total_checks` by exactly one. -/
lemma analyzeStep_total (acc : AnalyzeAcc) (e : String × CheckValue) :
    (analyzeStep acc e).total_checks = acc.total_checks + 1 := by
  rw [analyzeStep_def]; split <;> rfl

/-- An iteration increments `successful_checks` by at most one. -/
lemma analyzeStep_succ_le (acc : AnalyzeAcc) (e : String × CheckValue) :
    (analyzeStep acc e).successful_checks ≤ acc.successful_checks + 1 := by
  rw [analyzeStep_def]; split
  · exact le_refl _
  · exact le_of_lt (lt_add_one _)

/-- An iteration on an entry that is not counted successful leaves
`successful_checks` unchanged. -/
lemma analyzeStep_succ_of_fail (acc : AnalyzeAcc) (e : String × CheckValue)
    (h : e.2.getSuccess = false) :
    (analyzeStep acc e).successful_checks = acc.successful_checks := by
  rw [analyzeStep_def, h]; rfl

/-- The loop preserves `successful_checks ≤ total_checks`. -/
lemma foldl_succ_le_total (l : List (String × CheckValue)) (acc : AnalyzeAcc)
    (h : acc.successful_checks ≤ acc.total_checks) :
    (l.foldl analyzeStep acc).successful_checks
      ≤ (l.foldl analyzeStep acc).total_checks := by
  induction l generalizing acc with
  | nil => simpa using h
  | cons e t ih =>
    simp only [List.foldl_cons]
    apply ih
    have h1 := analyzeStep_total acc e
    have h2 := analyzeStep_succ_le acc e
    omega

/-- The nested `tests` mapping is never counted successful: its keys are
the four test descriptions, so `get("success", False)` yields `False`. -/
lemma tests_group_not_success (w : World) :
    (CheckValue.group (run_test_scripts w)).getSuccess = false := by
  simp [CheckValue.getSuccess, run_test_scripts, test_commands]

/-- Splitting the fold over the checks dictionary at its final `tests`
entry. -/
lemma runChecks_foldl (fix : Bool) (w : World) :
    (runChecks fix w).foldl analyzeStep ⟨0, 0, []⟩
      = analyzeStep ((runChecksPlain fix w).foldl analyzeStep ⟨0, 0, []⟩)
          ("tests", CheckValue.group (run_test_scripts w)) := by
  rw [runChecks, List.foldl_append]
  rfl

/-- Because the always-failed `tests` entry is processed last, the summary
of every completed run has `overall_success = false` and at least one
failed check. -/
lemma overall_success_false (fix : Bool) (w : World) :
    (analyze_results (runChecks fix w)).1.overall_success = false
    ∧ 1 ≤ (analyze_results (runChecks fix w)).1.failed_checks := by
  have h6 := foldl_succ_le_total (runChecksPlain fix w) ⟨0, 0, []⟩ (le_refl 0)
  have hg := tests_group_not_success w
  have ht := analyzeStep_total ((runChecksPlain fix w).foldl analyzeStep ⟨0, 0, []⟩)
      ("tests", CheckValue.group (run_test_scripts w))
  have hs := analyzeStep_succ_of_fail
      ((runChecksPlain fix w).foldl analyzeStep ⟨0, 0, []⟩)
      ("tests", CheckValue.group (run_test_scripts w)) hg
  simp only [analyze_results, runChecks_foldl, mkSummary]
  constructor
  · rw [beq_eq_false_iff_ne]
    omega
  · omega

/-- When the precondition holds, `run_all_checks` fills the report from the
check catalog and `analyze_results`. -/
lemma run_all_checks_of_pre (fix : Bool) (w : World)
    (h : check_node_modules w = true) :
    run_all_checks fix w =
      ({ checks := runChecks fix w,
         errors := (analyze_results (runChecks fix w)).2,
         summary := some (analyze_results (runChecks fix w)).1 },
        (analyze_results (runChecks fix w)).1.overall_success) := by
  simp [run_all_checks, h]

/-- `run_all_checks` never returns `True`: either the precondition fails,
or the always-failed `tests` entry forces `overall_success = false`. -/
lemma run_never_succeeds (fix : Bool) (w : World) :
    (run_all_checks fix w).2 = false := by
  by_cases h : check_node_modules w = true
  · rw [run_all_checks_of_pre fix w h]
    exact (overall_success_false fix w).1
  · simp [run_all_checks, h]

/-- Consequently the process exit code is `1` on every run. -/
lemma mainExit_always_one (fix check_only : Bool) (w : World) :
    mainExit fix check_only w = 1 := by
  simp only [mainExit]
  rw [run_never_succeeds]
  split <;> simp

/-- Field-level form of the summary invariants of lines 253-259. -/
lemma mkSummary_inv (t s : Int) :
    (mkSummary t s).total_checks
        = (mkSummary t s).successful_checks + (mkSummary t s).failed_checks
    ∧ ((mkSummary t s).overall_success = true ↔ (mkSummary t s).failed_checks = 0)
    ∧ (mkSummary t s).success_rate
        = (if 0 < (mkSummary t s).total_checks then
            ((mkSummary t s).successful_checks : ℚ)
              / ((mkSummary t s).total_checks : ℚ) * 100
          else 0) := by
  refine ⟨by simp [mkSummary], ?_, by simp [mkSummary]⟩
  simp only [mkSummary, beq_iff_eq]
  omega


/-- Claim C1 — evidence of the code bug: in a run where every required
path exists and every spawned command completes with exit code 0
(`allOkWorld`), `Summary.total_checks` is `7` — the six plain checks plus
the grouped test batch counted as ONE unit — and not the flat count `10`
(6 plain checks + 4 test-batch entries) that the specification requires. -/
theorem C1_total_checks_counts_group_once :
    (analyze_results (runChecks false allOkWorld)).1.total_checks = 7
    ∧ (analyze_results (runChecks false allOkWorld)).1.total_checks ≠ 10 := by
  decide

/-- Claim C2 — evidence of the code bug: in `allOkWorld` every plain check
and every test-batch entry is recorded with `success = true` and the
structural checks find nothing missing, yet `run_all_checks` returns
`False`, the summary has `overall_success = false`, and the process exits
with code 1 — because the nested `tests` mapping lacks a `"success"` key
and is therefore counted as one failed check. -/
theorem C2_all_commands_zero_still_fails :
    ((runChecksPlain false allOkWorld).all (fun p => p.2.getSuccess)) = true
    ∧ ((run_test_scripts allOkWorld).all (fun p => p.2.success)) = true
    ∧ (run_all_checks false allOkWorld).2 = false
    ∧ (analyze_results (runChecks false allOkWorld)).1.overall_success = false
    ∧ mainExit false false allOkWorld = 1 := by
  decide

/-- Claim C3: `analyze_results` counts the nested `tests` entry as exactly
one check (bumping `total_checks` by one while leaving
`successful_checks` unchanged), classifies it as failed (appending
`"tests: Check failed"` to the error list), and therefore every run that
reaches aggregation has `failed_checks ≥ 1`, `overall_success = false`,
and process exit code 1. -/
theorem C3_tests_entry_one_failed_check (fix check_only : Bool) (w : World)
    (acc : AnalyzeAcc) (h : check_node_modules w = true) :
    (analyzeStep acc ("tests", CheckValue.group (run_test_scripts w))).total_checks
        = acc.total_checks + 1
    ∧ (analyzeStep acc ("tests", CheckValue.group (run_test_scripts w))).successful_checks
        = acc.successful_checks
    ∧ (analyzeStep acc ("tests", CheckValue.group (run_test_scripts w))).errors
        = acc.errors ++ ["tests: Check failed"]
    ∧ (∃ s, (run_all_checks (fix_mode fix check_only) w).1.summary = some s
          ∧ 1 ≤ s.failed_checks ∧ s.overall_success = false)
    ∧ mainExit fix check_only w = 1 := by
  have hg := tests_group_not_success w
  refine ⟨analyzeStep_total acc _, analyzeStep_succ_of_fail acc _ hg, ?_, ?_,
    mainExit_always_one fix check_only w⟩
  · rw [analyzeStep_def, hg]
    simp only [Bool.false_eq_true, if_false]
    rfl
  · rw [run_all_checks_of_pre _ w h]
    exact ⟨_, rfl, (overall_success_false _ w).2, (overall_success_false _ w).1⟩

/-- Witness for C3 at the concrete world `allOkWorld` and the initial
accumulator. -/
theorem C3_witness :
    check_node_modules allOkWorld = true
    ∧ ((analyzeStep ⟨0, 0, []⟩
          ("tests", CheckValue.group (run_test_scripts allOkWorld))).total_checks
        = (⟨0, 0, []⟩ : AnalyzeAcc).total_checks + 1
      ∧ (analyzeStep ⟨0, 0, []⟩
          ("tests", CheckValue.group (run_test_scripts allOkWorld))).successful_checks
        = (⟨0, 0, []⟩ : AnalyzeAcc).successful_checks
      ∧ (analyzeStep ⟨0, 0, []⟩
          ("tests", CheckValue.group (run_test_scripts allOkWorld))).errors
        = (⟨0, 0, []⟩ : AnalyzeAcc).errors ++ ["tests: Check failed"]
      ∧ (∃ s, (run_all_checks (fix_mode false false) allOkWorld).1.summary = some s
            ∧ 1 ≤ s.failed_checks ∧ s.overall_success = false)
      ∧ mainExit false false allOkWorld = 1) :=
  ⟨by decide, C3_tests_entry_one_failed_check false false allOkWorld ⟨0, 0, []⟩ (by decide)⟩

/-- Claim C4: for every run, the summary produced by `analyze_results`
satisfies `total_checks = successful_checks + failed_checks`,
`overall_success ↔ failed_checks = 0`, and
`success_rate = successful_checks / total_checks * 100` (with `0` when
`total_checks = 0`); in particular 3 successes out of 4 checks yield a
rate of 75. -/
theorem C4_summary_invariants (fix : Bool) (w : World) :
    ((analyze_results (runChecks fix w)).1.total_checks
        = (analyze_results (runChecks fix w)).1.successful_checks
          + (analyze_results (runChecks fix w)).1.failed_checks
      ∧ ((analyze_results (runChecks fix w)).1.overall_success = true
          ↔ (analyze_results (runChecks fix w)).1.failed_checks = 0)
      ∧ (analyze_results (runChecks fix w)).1.success_rate
          = (if 0 < (analyze_results (runChecks fix w)).1.total_checks then
              ((analyze_results (runChecks fix w)).1.successful_checks : ℚ)
                / ((analyze_results (runChecks fix w)).1.total_checks : ℚ) * 100
            else 0))
    ∧ (mkSummary 4 3).success_rate = 75 := by
  constructor
  · exact mkSummary_inv _ _
  · norm_num [mkSummary]

/-- Claim C5 — evidence of the code bug: in `authFailWorld` the test-batch
entry "Authentication tests" is recorded with `success = false`, and the
process exits with code 1, but the aggregated error list is exactly
`["tests: Check failed"]`: no line names the failing entry's label (the
label occurs in no error line), contradicting the claim that every failing
check's label appears in the error list. -/
theorem C5_failing_test_label_absent :
    ((run_test_scripts authFailWorld).lookup "Authentication tests").map
        CheckResult.success = some false
    ∧ (analyze_results (runChecks false authFailWorld)).2 = ["tests: Check failed"]
    ∧ ((analyze_results (runChecks false authFailWorld)).2.any
        (fun e => substrOccurs "Authentication tests" e)) = false
    ∧ mainExit false false authFailWorld = 1 := by
  decide

/-- The timeout message splits around the words "timed out". -/
lemma timeout_msg_split (desc : String) :
    "Command timed out after 5 minutes: " ++ desc
      = "Command " ++ "timed out" ++ (" after 5 minutes: " ++ desc) :=
  calc "Command timed out after 5 minutes: " ++ desc
      = "Command " ++ ("timed out" ++ " after 5 minutes: ") ++ desc := rfl
    _ = "Command " ++ (("timed out" ++ " after 5 minutes: ") ++ desc) :=
        String.append_assoc _ _ _
    _ = "Command " ++ ("timed out" ++ (" after 5 minutes: " ++ desc)) := by
        rw [String.append_assoc]
    _ = "Command " ++ "timed out" ++ (" after 5 minutes: " ++ desc) :=
        (String.append_assoc _ _ _).symm

/-- Claim C6: a command that times out is recorded with `success = false`,
sentinel return code `-1`, and an error message containing both the
check's label and the words "timed out"; and the run is not aborted — the
checks mapping still holds all seven catalog entries, the test batch still
holding all four test entries. -/
theorem C6_timeout_recorded_run_continues (w : World) (cmd : List String)
    (desc : String) (fix : Bool)
    (htime : w.run cmd = CmdOutcome.timedOut)
    (hpre : check_node_modules w = true) :
    (run_command (w.run cmd) desc).success = false
    ∧ (run_command (w.run cmd) desc).returncode = -1
    ∧ (∃ a, (run_command (w.run cmd) desc).stderr = a ++ desc)
    ∧ (∃ a b, (run_command (w.run cmd) desc).stderr = a ++ "timed out" ++ b)
    ∧ (run_all_checks fix w).1.checks.map Prod.fst
        = ["eslint", "prettier", "typescript", "drizzle", "file_structure",
           "environment", "tests"]
    ∧ (∃ rs, (run_all_checks fix w).1.checks.lookup "tests"
            = some (CheckValue.group rs)
          ∧ rs.map Prod.fst
            = ["Authentication tests", "Crypto utility tests",
               "CSV processing tests", "Variable substitution tests"]) := by
  rw [htime]
  have hck : (run_all_checks fix w).1.checks = runChecks fix w := by
    rw [run_all_checks_of_pre fix w hpre]
  refine ⟨rfl, rfl, ⟨"Command timed out after 5 minutes: ", rfl⟩,
    ⟨"Command ", " after 5 minutes: " ++ desc, timeout_msg_split desc⟩, ?_, ?_⟩
  · rw [hck]; rfl
  · rw [hck]
    exact ⟨run_test_scripts w, rfl, rfl⟩

/-- Witness for C6: the world in which every command times out, applied to
the TypeScript check. -/
theorem C6_witness :
    timeoutWorld.run typescript_command = CmdOutcome.timedOut
    ∧ check_node_modules timeoutWorld = true
    ∧ ((run_command (timeoutWorld.run typescript_command) "TypeScript type check").success = false
      ∧ (run_command (timeoutWorld.run typescript_command) "TypeScript type check").returncode = -1
      ∧ (∃ a, (run_command (timeoutWorld.run typescript_command) "TypeScript type check").stderr
            = a ++ "TypeScript type check")
      ∧ (∃ a b, (run_command (timeoutWorld.run typescript_command) "TypeScript type check").stderr
            = a ++ "timed out" ++ b)
      ∧ (run_all_checks false timeoutWorld).1.checks.map Prod.fst
          = ["eslint", "prettier", "typescript", "drizzle", "file_structure",
             "environment", "tests"]
      ∧ (∃ rs, (run_all_checks false timeoutWorld).1.checks.lookup "tests"
              = some (CheckValue.group rs)
            ∧ rs.map Prod.fst
              = ["Authentication tests", "Crypto utility tests",
                 "CSV processing tests", "Variable substitution tests"])) :=
  ⟨rfl, by decide,
    C6_timeout_recorded_run_continues timeoutWorld typescript_command
      "TypeScript type check" false rfl (by decide)⟩

/-- Claim C7: when the precondition fails (dependency manifest or
installed-dependencies directory missing), no check is ever recorded in
the report, no summary is computed, the emitted diagnostic names the
missing artifact, and the process exits with code 1. -/
theorem C7_precondition_abort (fix check_only : Bool) (w : World)
    (h : check_node_modules w = false) :
    (run_all_checks (fix_mode fix check_only) w).1.checks = []
    ∧ (run_all_checks (fix_mode fix check_only) w).1.summary = none
    ∧ ((check_node_modules_result w).2 = ["package.json not found"]
       ∨ (check_node_modules_result w).2
           = ["node_modules not found. Run \x27npm install\x27 first."])
    ∧ mainExit fix check_only w = 1 := by
  refine ⟨by simp [run_all_checks, h], by simp [run_all_checks, h], ?_,
    mainExit_always_one fix check_only w⟩
  cases hp : w.pathExists "package.json" with
  | false => left; simp [check_node_modules_result, hp]
  | true =>
    cases hn : w.pathExists "node_modules" with
    | false => right; simp [check_node_modules_result, hp, hn]
    | true =>
      exfalso
      simp [check_node_modules, check_node_modules_result, hp, hn] at h

/-- Witness for C7: the world with no paths at all. -/
theorem C7_witness :
    check_node_modules noDepsWorld = false
    ∧ ((run_all_checks (fix_mode false false) noDepsWorld).1.checks = []
      ∧ (run_all_checks (fix_mode false false) noDepsWorld).1.summary = none
      ∧ ((check_node_modules_result noDepsWorld).2 = ["package.json not found"]
         ∨ (check_node_modules_result noDepsWorld).2
             = ["node_modules not found. Run \x27npm install\x27 first."])
      ∧ mainExit false false noDepsWorld = 1) :=
  ⟨by decide, C7_precondition_abort false false noDepsWorld (by decide)⟩

/-- Claim C8: with `--check-only` set, the argument vectors of every
spawned command are the same whether or not `--fix` is also passed — the
fix flag is suppressed by `fix_mode = args.fix and not args.check_only`. -/
theorem C8_check_only_suppresses_fix (fix : Bool) :
    allCommands (fix_mode fix true) = allCommands (fix_mode false true) := by
  cases fix <;> rfl

/-- Claim C9: when spawning raises an exception (`except Exception` arm of
`run_command`), the result has `success = false`, sentinel return code
`-1`, and the underlying error's text (`str(e)`) in the `stderr` field. -/
theorem C9_launch_error_recorded (msg desc : String) :
    (run_command (CmdOutcome.launchError msg) desc).success = false
    ∧ (run_command (CmdOutcome.launchError msg) desc).returncode = -1
    ∧ (run_command (CmdOutcome.launchError msg) desc).stderr = msg :=
  ⟨rfl, rfl, rfl⟩

/-- Claim C10: the `elif isinstance(result, dict) and "tests" in
check_name` branch of `analyze_results` is unreachable for every possible
semantics `d` of the `isinstance(result, dict)` test, every check name and
every stored value: its guard can only hold when the preceding `if` guard
— the very same `d result` — already held, so the nested per-test counting
code never executes. -/
theorem C10_elif_branch_unreachable (d : CheckValue → Bool)
    (check_name : String) (result : CheckValue) :
    selectBranch d check_name result ≠ AnalyzeBranch.elifBranch := by
  cases hd : d result <;> simp [selectBranch, hd]
